import Mathlib

/-!
Verification of the query-routing, parameter-resolution, data-analysis and
URL-building core of the Xinyi-Estate AI agent.  The Python sources are
shallowly embedded: dataframes become association-list rows, dictionaries
become association lists, Python truthiness is modelled explicitly, and the
external collaborators (language model, JSON parser, date parser) become
function parameters.
-/

set_option autoImplicit false

namespace AIAgent

/-! ## Generic string helpers (Python `in`, prefix tests) -/

/-- Boolean prefix test on character lists. -/
def isPre : List Char → List Char → Bool
  | [], _ => true
  | _ :: _, [] => false
  | a :: as, b :: bs => a == b && isPre as bs

/-- Boolean substring-occurrence test on character lists (Python `needle in hay`). -/
def isSub (p : List Char) : List Char → Bool
  | [] => isPre p []
  | c :: t => isPre p (c :: t) || isSub p t

/-- Python's `needle in hay` on strings. -/
def strIn (needle hay : String) : Bool := isSub needle.data hay.data

/-- Python `str.strip()`: drop leading and trailing whitespace. -/
def pyStrip (s : String) : String :=
  String.mk (((s.data.dropWhile Char.isWhitespace).reverse.dropWhile Char.isWhitespace).reverse)

/-! ## Query router (`AI_agent/utils.py`, `identify_query_type`) -/

inductive QueryType
  | PLOT
  | AVERAGE_PRICE
  | OTHER
deriving DecidableEq, Repr

/-- `PLOT_KEYWORDS` from `AI_agent/config.py` (the source list repeats 走勢). -/
def PLOT_KEYWORDS : List String :=
  ["圖表", "統計圖", "長條圖", "折線圖", "圓餅圖", "視覺化", "趨勢圖", "分布圖",
   "比較圖", "走勢", "顯示", "製圖", "畫出", "繪製", "視覺呈現", "圖形", "趨勢",
   "走勢", "變化", "漲跌", "成長", "歷史"]

/-- `PRICE_KEYWORDS` from `AI_agent/config.py`. -/
def PRICE_KEYWORDS : List String :=
  ["房價", "價格", "行情", "均價", "單價", "多少錢", "價位", "平均", "值多少",
   "房子多少", "一坪", "每坪"]

/-- The already-resolved parameter record handed to `identify_query_type`
(`parsed_params.get("城市")` / `parsed_params.get("鄉鎮市區")`). -/
structure ParsedParams where
  city : Option String
  district : Option String
deriving DecidableEq, Repr

/-- One position of a Python `re.search` for a pattern `(a₁|…)·*?(b₁|…)`:
some alternative of the first group is a prefix here and some alternative of
the second group occurs at or after its end. -/
def patHitAt (as bs : List String) (h : List Char) : Bool :=
  as.any (fun a => isPre a.data h && bs.any (fun b => isSub b.data (h.drop a.data.length)))

/-- `re.search(r'(a₁|…).*?(b₁|…)', text)` viewed as a Boolean: scan all start
positions left to right. -/
def patSearch (as bs : List String) : List Char → Bool
  | [] => patHitAt as bs []
  | c :: t => patHitAt as bs (c :: t) || patSearch as bs t

def routerCityWords : List String := ["新北市", "台北市", "臺北市"]

def routerPriceWordsLong : List String := ["房價", "價格", "行情", "均價", "單價", "多少錢"]

def routerPriceWordsShort : List String := ["房價", "價格", "行情", "均價", "單價"]

def routerShortDistricts : List String :=
  ["大安", "信義", "中正", "松山", "大同", "萬華", "文山", "南港", "內湖", "士林",
   "北投", "板橋", "三重", "中和", "永和", "新莊", "新店", "汐止", "淡水"]

def routerFullDistricts : List String :=
  ["大安區", "信義區", "中正區", "松山區", "大同區", "萬華區", "文山區", "南港區",
   "內湖區", "士林區", "北投區", "板橋區", "三重區", "中和區", "永和區", "新莊區",
   "新店區", "汐止區", "淡水區"]

def routerHowWords : List String := ["多少", "如何"]

/-- Rule 3 of `identify_query_type`: the five `price_patterns` regexes. -/
def matchesPricePatterns (text : String) : Bool :=
  patSearch routerCityWords routerPriceWordsLong text.data ||
  patSearch routerPriceWordsShort routerCityWords text.data ||
  patSearch routerShortDistricts routerPriceWordsShort text.data ||
  patSearch routerPriceWordsShort routerShortDistricts text.data ||
  patSearch routerFullDistricts routerHowWords text.data

/-- `identify_query_type` from `AI_agent/utils.py`, on the path where
`parsed_params` was provided (`has_city`/`has_district` from the record). -/
def identify_query_type (text : String) (params : ParsedParams) : QueryType :=
  let hasCity := params.city.isSome
  let hasDistrict := params.district.isSome
  if PLOT_KEYWORDS.any (fun k => strIn k text) then QueryType.PLOT
  else if PRICE_KEYWORDS.any (fun k => strIn k text) && (hasCity || hasDistrict) then
    QueryType.AVERAGE_PRICE
  else if matchesPricePatterns text then QueryType.AVERAGE_PRICE
  else if (hasCity || hasDistrict) && decide (text.length < 25) then QueryType.AVERAGE_PRICE
  else QueryType.OTHER

/-! ## Parameter extractor (`AI_agent/utils.py`, `parse_query_to_json`) -/

/-- `CURRENT_YEAR` from `AI_agent/config.py`. -/
def CURRENT_YEAR : Int := 2025

structure TimeRange where
  start_year : Int
  end_year : Int
  description : String
deriving DecidableEq, Repr

/-- The `時間範圍` field of the structured output: absent from the dict,
JSON null, a raw string, or an already-structured range. -/
inductive TRField
  | missing
  | null
  | strVal (s : String)
  | dictVal (tr : TimeRange)
deriving DecidableEq, Repr

/-- The dictionary produced by `StructuredOutputParser.parse`. -/
structure RawRecord where
  city : Option String := none
  district : Option String := none
  rooms : Option Int := none
  livingRooms : Option Int := none
  baths : Option Int := none
  elevator : Option String := none
  age : Option Int := none
  timeRange : TRField := TRField.missing
deriving DecidableEq, Repr

/-- Outcome of the model call plus schema parse: the whole try-block up to the
time-range post-processing either raises (failure) or yields a record. -/
inductive ExtractOutcome
  | failure
  | parsed (r : RawRecord)
deriving DecidableEq, Repr

/-- Python truthiness of the field combined with `not in [None, "null"]`
(line 144 of `AI_agent/utils.py`). -/
def trCond1 : TRField → Bool
  | TRField.strVal s => !(s == "") && !(s == "null")
  | TRField.dictVal _ => true
  | _ => false

/-- `"時間範圍" not in parsed_output or parsed_output["時間範圍"] in [None, "null"]`
(line 155 of `AI_agent/utils.py`). -/
def trIsNoneOrNull : TRField → Bool
  | TRField.missing => true
  | TRField.null => true
  | TRField.strVal s => s == "null"
  | TRField.dictVal _ => false

/-- `parse_query_to_json` from `AI_agent/utils.py`, parameterised by the
outcome of the language-model call and by `json.loads` restricted to
time-range objects (both external collaborators). -/
def parse_query_to_json (jsonLoads : String → Option TimeRange) :
    ExtractOutcome → RawRecord
  | ExtractOutcome.failure =>
      { timeRange := TRField.dictVal ⟨2015, 2024, "2015-2024年(默認)"⟩ }
  | ExtractOutcome.parsed r =>
      let r1 :=
        if trCond1 r.timeRange then
          match r.timeRange with
          | TRField.strVal s =>
              if s.startsWith "\x7b" && s.endsWith "\x7d" then
                match jsonLoads s with
                | some tr => { r with timeRange := TRField.dictVal tr }
                | none => r
              else r
          | _ => r
        else r
      if trIsNoneOrNull r1.timeRange then
        { r1 with timeRange := TRField.dictVal ⟨2015, 2024, "2015-2024年"⟩ }
      else r1

/-! ## Dataframe model shared by the analyzers (`AI_agent/data_analysis.py`) -/

/-- One cell of a pandas dataframe: a string, an integer, or NaN/missing.
Comparisons follow pandas semantics: NaN is equal to nothing (itself
included) and order-comparisons against NaN or a string are false. -/
inductive CellVal
  | null
  | str (s : String)
  | int (n : Int)
deriving DecidableEq, Repr

/-- A row, as the mapping from column name to cell; absent columns read NaN. -/
abbrev Row := List (String × CellVal)

def rowGet (r : Row) (c : String) : CellVal := (r.lookup c).getD CellVal.null

structure DFrame where
  cols : List String
  rows : List Row
deriving DecidableEq, Repr

/-- Elementwise `==` between a cell and a scalar (NaN compares unequal). -/
def cellEq (a b : CellVal) : Bool :=
  match a, b with
  | CellVal.str s, CellVal.str t => s == t
  | CellVal.int m, CellVal.int n => m == n
  | _, _ => false

def cellIsNull : CellVal → Bool
  | CellVal.null => true
  | _ => false

/-- `cell >= n` for an integer bound (false on NaN and non-numeric cells). -/
def cellGeInt (c : CellVal) (n : Int) : Bool :=
  match c with
  | CellVal.int m => decide (n ≤ m)
  | _ => false

/-- `cell <= n` for an integer bound (false on NaN and non-numeric cells). -/
def cellLeInt (c : CellVal) (n : Int) : Bool :=
  match c with
  | CellVal.int m => decide (m ≤ n)
  | _ => false

/-- A value of the filter dictionary passed to `filter_data_by_attributes`:
null, string, integer, a time-range dict (`start_year`/`end_year` keys, an
absent key read through `.get` being `none`), a min/max dict (a key present
iff the option is `some`), or a list. -/
inductive FVal
  | null
  | str (s : String)
  | int (n : Int)
  | timeRange (start_year end_year : Option Int) (description : Option String)
  | minMax (lo hi : Option Int)
  | list (vs : List CellVal)
deriving DecidableEq, Repr

/-- The skip test at the top of the filter loop:
`value is None or value == '' or (isinstance(value, str) and value.strip() == "")`. -/
def skipFVal : FVal → Bool
  | FVal.null => true
  | FVal.str s => s == "" || pyStrip s == ""
  | _ => false

/-- `isinstance(value, dict)`. -/
def isDictFVal : FVal → Bool
  | FVal.timeRange _ _ _ => true
  | FVal.minMax _ _ => true
  | _ => false

/-- Python truthiness of an optional integer (`None` and `0` are falsy). -/
def optIntTruthy : Option Int → Bool
  | none => false
  | some n => !(n == 0)

def fvalStartYear : FVal → Option Int
  | FVal.timeRange s _ _ => s
  | _ => none

def fvalEndYear : FVal → Option Int
  | FVal.timeRange _ e _ => e
  | _ => none

def fvalMin : FVal → Option Int
  | FVal.minMax lo _ => lo
  | _ => none

def fvalMax : FVal → Option Int
  | FVal.minMax _ hi => hi
  | _ => none

/-- The conditions one `(attr, value)` entry of the filter dict appends to
`filter_conditions` in `RealEstateAnalyzer.filter_data_by_attributes`. -/
def entryConds (cols : List String) (attr : String) (v : FVal) : List (Row → Bool) :=
  if skipFVal v then []
  else if attr == "時間範圍" && isDictFVal v then
    if cols.contains "交易年度" then
      match fvalStartYear v, fvalEndYear v with
      | some s, some e =>
          if !(s == 0) && !(e == 0) then
            [fun r => cellGeInt (rowGet r "交易年度") s && cellLeInt (rowGet r "交易年度") e]
          else []
      | _, _ => []
    else []
  else if attr == "屋齡" && isDictFVal v then
    if cols.contains "屋齡" then
      (match fvalMin v with
       | some m => [fun r => cellGeInt (rowGet r "屋齡") m]
       | none => []) ++
      (match fvalMax v with
       | some m => [fun r => cellLeInt (rowGet r "屋齡") m]
       | none => [])
    else []
  else if cols.contains attr then
    match v with
    | FVal.minMax lo hi =>
        if lo.isSome || hi.isSome then
          (match lo with
           | some m => [fun r => cellGeInt (rowGet r attr) m]
           | none => []) ++
          (match hi with
           | some m => [fun r => cellLeInt (rowGet r attr) m]
           | none => [])
        else [fun _ => false]
    | FVal.timeRange _ _ _ => [fun _ => false]
    | FVal.list vs =>
        if vs.isEmpty then [] else [fun r => vs.any (fun x => cellEq (rowGet r attr) x)]
    | FVal.str s =>
        if attr == "建物現況格局-房" || attr == "建物現況格局-廳" || attr == "建物現況格局-衛" then
          match s.toInt? with
          | some n => [fun r => cellEq (rowGet r attr) (CellVal.int n)]
          | none => [fun r => cellEq (rowGet r attr) (CellVal.str s)]
        else [fun r => cellEq (rowGet r attr) (CellVal.str s)]
    | FVal.int n => [fun r => cellEq (rowGet r attr) (CellVal.int n)]
    | FVal.null => []
  else []

/-- `RealEstateAnalyzer.filter_data_by_attributes` from
`AI_agent/data_analysis.py`: collect the per-entry conditions in dictionary
order, AND them together, and filter; with no conditions the frame is
returned unchanged. -/
def filter_data_by_attributes (df : DFrame) (filters : List (String × FVal)) : DFrame :=
  let conds := filters.flatMap (fun p => entryConds df.cols p.1 p.2)
  if conds.isEmpty then df
  else { df with rows := df.rows.filter (fun r => conds.all (fun c => c r)) }

/-! ## Price analyzer (`RealEstateAnalyzer.calculate_average_price`) -/

/-- pandas column mean ignoring NaN; `none` when no numeric value remains
(pandas would yield NaN — both "no mean available"). -/
def ratMean (vs : List ℚ) : Option ℚ :=
  if vs.isEmpty then none else some (vs.sum / vs.length)

def cellNum : CellVal → Option ℚ
  | CellVal.int n => some (n : ℚ)
  | _ => none

def colVals (rows : List Row) (c : String) : List ℚ :=
  rows.filterMap (fun r => cellNum (rowGet r c))

def colMean (rows : List Row) (c : String) : Option ℚ := ratMean (colVals rows c)

def insSorted (x : ℚ) : List ℚ → List ℚ
  | [] => [x]
  | y :: t => if x ≤ y then x :: y :: t else y :: insSorted x t

def sortRats (l : List ℚ) : List ℚ := l.foldr insSorted []

/-- pandas `median` over the non-NaN values. -/
def ratMedian (vs : List ℚ) : Option ℚ :=
  let s := sortRats vs
  let n := s.length
  if n == 0 then none
  else if n % 2 == 1 then some (s.getD (n / 2) 0)
  else some ((s.getD (n / 2 - 1) 0 + s.getD (n / 2) 0) / 2)

/-- pandas sample variance (`std` squared, ddof = 1); `none` below two values
where pandas `std` is NaN.  The square root taken by `std` itself is not
rational-representable and no claim concerns it. -/
def ratVar (vs : List ℚ) : Option ℚ :=
  if vs.length < 2 then none
  else
    match ratMean vs with
    | some m => some ((vs.map (fun x => (x - m) * (x - m))).sum / ((vs.length : ℚ) - 1))
    | none => none

structure PriceStats where
  median : Option ℚ
  lo : Option ℚ
  hi : Option ℚ
  variance : Option ℚ
  avg_total_price : Option ℚ
  avg_size_ping : Option ℚ
deriving DecidableEq, Repr

def insSortedStr (x : String) : List String → List String
  | [] => [x]
  | y :: t => if decide (x ≤ y) then x :: y :: t else y :: insSortedStr x t

def sortStrs (l : List String) : List String := l.foldr insSortedStr []

def insSortedByMeanDesc (x : String × Option ℚ) :
    List (String × Option ℚ) → List (String × Option ℚ)
  | [] => [x]
  | y :: t =>
      match x.2, y.2 with
      | some a, some b => if b ≤ a then x :: y :: t else y :: insSortedByMeanDesc x t
      | _, _ => x :: y :: t

/-- Round a rational to two decimals (`round(2)`; pandas rounds half to even,
a tie case no claim exercises). -/
def roundTo2 (q : ℚ) : ℚ := (round (q * 100) : ℤ) / 100

/-- The per-district mean-price table computed when no district was requested
and more than 10 rows remain (`groupby('鄉鎮市區')['每坪單價'].mean()`, sorted
descending by mean, rounded to two decimals). -/
def districtAvgTable (rows : List Row) : List (String × Option ℚ) :=
  let keys := sortStrs ((rows.filterMap (fun r =>
    match rowGet r "鄉鎮市區" with
    | CellVal.str s => some s
    | _ => none)).dedup)
  let means := keys.map (fun k =>
    (k, (colMean (rows.filter (fun r => cellEq (rowGet r "鄉鎮市區") (CellVal.str k))) "每坪單價").map roundTo2))
  means.foldr insSortedByMeanDesc []

structure AvgPriceResult where
  avg_price : Option ℚ
  avg_total_price : Option ℚ
  avg_size_ping : Option ℚ
  count : Nat
  district : Option String
  filters : Option (List (String × FVal))
  dataframe : Option (List (String × Option ℚ))
  stats : Option PriceStats
  error : Option String
deriving DecidableEq, Repr

/-- The district-filtering step of `calculate_average_price`:
`if district and district in df['鄉鎮市區'].values: df = df[df['鄉鎮市區'] == district]`
(an empty string is falsy; a district absent from the column leaves the frame
unchanged). -/
def capsDistrictFiltered (df : DFrame) (district : Option String) : DFrame :=
  match district with
  | some d =>
      if !(d == "") && df.rows.any (fun r => cellEq (rowGet r "鄉鎮市區") (CellVal.str d)) then
        { df with rows := df.rows.filter (fun r => cellEq (rowGet r "鄉鎮市區") (CellVal.str d)) }
      else df
  | none => df

/-- District filter followed by the attribute filter
(`if filters and isinstance(filters, dict)`: an empty dict is falsy). -/
def capsFiltered (df : DFrame) (district : Option String)
    (filters : Option (List (String × FVal))) : DFrame :=
  let df1 := capsDistrictFiltered df district
  match filters with
  | some fs => if fs.isEmpty then df1 else filter_data_by_attributes df1 fs
  | none => df1

/-- `RealEstateAnalyzer.calculate_average_price` from
`AI_agent/data_analysis.py` (the module-level copy in
`agents/tools/data_analysis.py` is logic-identical, differing only in the
error string, which here follows the `AI_agent` version). -/
def calculate_average_price (df : DFrame) (district : Option String)
    (filters : Option (List (String × FVal))) : AvgPriceResult :=
  let df2 := capsFiltered df district filters
  if 0 < df2.rows.length then
    let prices := colVals df2.rows "每坪單價"
    { avg_price := ratMean prices
      avg_total_price := colMean df2.rows "總價元"
      avg_size_ping := colMean df2.rows "建物移轉總坪數"
      count := df2.rows.length
      district := district
      filters := filters
      dataframe :=
        if district.isNone && decide (10 < df2.rows.length) then
          some (districtAvgTable df2.rows)
        else none
      stats := some
        { median := ratMedian prices
          lo := prices.min?
          hi := prices.max?
          variance := ratVar prices
          avg_total_price := colMean df2.rows "總價元"
          avg_size_ping := colMean df2.rows "建物移轉總坪數" }
      error := none }
  else
    { avg_price := none, avg_total_price := none, avg_size_ping := none, count := 0,
      district := district, filters := filters, dataframe := none, stats := none,
      error := some "找不到相關數據" }

/-! ## Trend builder (`RealEstateAnalyzer.generate_price_trend_chart`) -/

/-- The `time_range` dict argument of the trend builder; keys read through
`.get` so an absent key is `none`. -/
structure TimeRangeArg where
  start_year : Option Int := none
  end_year : Option Int := none
  description : Option String := none
deriving DecidableEq, Repr

/-- The `time_grouped` table: month buckets (single-year data) or year
buckets, each bucket carrying its key, the group mean of `每坪單價` and the
group row count. -/
inductive Bucketed
  | byMonth (year : Int) (buckets : List (Int × ℚ × Nat))
  | byYear (buckets : List (Int × ℚ × Nat))
deriving DecidableEq, Repr

/-- The observable outcomes of `generate_price_trend_chart`.  The matplotlib
rendering collaborator is treated as non-failing (on a rendering exception the
Python function falls off the end and returns `None`, a path outside every
claim). -/
inductive TrendResult
  | noDateColumn
  | districtEmpty (area_text : String)
  | rangeEmpty (area_text : String) (time_range_text : String)
  | tooFewPoints (area_text : String) (time_range_text : String) (grouped : Bucketed)
  | ok (grouped : Bucketed) (direction : String) (changePct : ℚ)
      (maxLabel minLabel : String) (time_range_text : String) (x_label : String)
deriving DecidableEq, Repr

/-- Python `f"{x}"` on an optional string (`None` prints as `"None"`). -/
def pyStrOpt : Option String → String
  | some s => s
  | none => "None"

/-- Python truthiness of an optional string. -/
def optStrTruthy : Option String → Bool
  | some s => !(s == "")
  | none => false

def insSortedInt (x : Int) : List Int → List Int
  | [] => [x]
  | y :: t => if decide (x ≤ y) then x :: y :: t else y :: insSortedInt x t

def sortInts (l : List Int) : List Int := l.foldr insSortedInt []

/-- `sorted(column.unique())`. -/
def sortedUnique (l : List Int) : List Int := sortInts l.dedup

/-- The district-filter step: `if district: df = df[df['鄉鎮市區'] == district]`
(no presence check here, unlike `calculate_average_price`). -/
def districtRows (df : DFrame) (district : Option String) : List Row :=
  match district with
  | some d =>
      if !(d == "") then df.rows.filter (fun r => cellEq (rowGet r "鄉鎮市區") (CellVal.str d))
      else df.rows
  | none => df.rows

def districtTruthy : Option String → Bool
  | some d => !(d == "")
  | none => false

/-- Steps 1–4 of the trend builder: drop rows with a missing `交易年月日`,
convert with `pd.to_datetime(…, errors='coerce')` (the external date parser),
drop unparseable rows, and attach year and month. -/
def trendDatedRows (parseDate : CellVal → Option (Int × Int)) (rows : List Row) :
    List (Row × Int × Int) :=
  (rows.filter (fun r => !(cellIsNull (rowGet r "交易年月日")))).filterMap
    (fun r => (parseDate (rowGet r "交易年月日")).map (fun ym => (r, ym.1, ym.2)))

/-- Step 5: the year-range filter (`if start_year:` / `if end_year:` — a zero
or absent year is falsy and applies no bound). -/
def trendRangeRows (parseDate : CellVal → Option (Int × Int)) (rows : List Row)
    (time_range : Option TimeRangeArg) : List (Row × Int × Int) :=
  let dated := trendDatedRows parseDate rows
  match time_range with
  | some tr =>
      let a1 :=
        match tr.start_year with
        | some s => if !(s == 0) then dated.filter (fun x => decide (s ≤ x.2.1)) else dated
        | none => dated
      match tr.end_year with
      | some e => if !(e == 0) then a1.filter (fun x => decide (x.2.1 ≤ e)) else a1
      | none => a1
  | none => dated

/-- The `time_range_text` computed from the `time_range` argument before any
bucket-derived default. -/
def trendRangeText (time_range : Option TimeRangeArg) : String :=
  match time_range with
  | some tr =>
      if optStrTruthy tr.description then (tr.description).getD ""
      else
        match tr.start_year, tr.end_year with
        | some s, some e =>
            if !(s == 0) && !(e == 0) then
              if s == e then toString s ++ "年" else toString s ++ "年至" ++ toString e ++ "年"
            else ""
        | _, _ => ""
  | none => ""

def bucketsOf : Bucketed → List (Int × ℚ × Nat)
  | Bucketed.byMonth _ bs => bs
  | Bucketed.byYear bs => bs

/-- The `時間標籤` of a bucket key. -/
def bucketLabel : Bucketed → Int → String
  | Bucketed.byMonth _ _, k => toString k ++ "月"
  | Bucketed.byYear _, k => toString k ++ "年"

/-- Group mean / count aggregation over one bucket key (pandas `agg` with
`mean` skipping NaN; buckets whose mean is NaN are dropped afterwards by
`dropna`, hence `filterMap`). -/
def bucketFor (grp : List (Row × Int × Int)) (k : Int) : Option (Int × ℚ × Nat) :=
  (ratMean (grp.filterMap (fun x => cellNum (rowGet x.1 "每坪單價")))).map
    (fun mu => (k, mu, grp.length))

def monthBuckets (rows : List (Row × Int × Int)) : List (Int × ℚ × Nat) :=
  (sortedUnique (rows.map (fun x => x.2.2))).filterMap
    (fun m => bucketFor (rows.filter (fun x => x.2.2 == m)) m)

def yearBuckets (rows : List (Row × Int × Int)) : List (Int × ℚ × Nat) :=
  (sortedUnique (rows.map (fun x => x.2.1))).filterMap
    (fun y => bucketFor (rows.filter (fun x => x.2.1 == y)) y)

/-- Steps 9–10: percent change first→last bucket, direction, and the
first-occurrence extremal buckets (`idxmax`/`idxmin`). -/
def trendFinish (g : Bucketed) (area_text time_range_text x_label : String) : TrendResult :=
  let bs := bucketsOf g
  if bs.length < 2 then TrendResult.tooFewPoints area_text time_range_text g
  else
    let means := bs.map (fun b => b.2.1)
    let first := means.headD 0
    let last := means.getLastD 0
    let change := (last - first) / first * 100
    let dir := if 0 < change then "上升" else "下降"
    let mx := means.foldr max (means.headD 0)
    let mn := means.foldr min (means.headD 0)
    let maxKey := ((bs.find? (fun b => b.2.1 == mx)).map (fun b => b.1)).getD 0
    let minKey := ((bs.find? (fun b => b.2.1 == mn)).map (fun b => b.1)).getD 0
    TrendResult.ok g dir change (bucketLabel g maxKey) (bucketLabel g minKey)
      time_range_text x_label

/-- Steps 5–10 of `generate_price_trend_chart`, from the date-annotated rows
on. -/
def trendCore (parseDate : CellVal → Option (Int × Int)) (rows : List Row)
    (area_text : String) (time_range : Option TimeRangeArg) : TrendResult :=
  let afterRange := trendRangeRows parseDate rows time_range
  let trText := trendRangeText time_range
  if afterRange.isEmpty then TrendResult.rangeEmpty area_text trText
  else
    let years := sortedUnique (afterRange.map (fun x => x.2.1))
    if years.length = 1 then
      let y := years.headD 0
      let trText2 := if trText == "" then toString y ++ "年各月份" else trText
      trendFinish (Bucketed.byMonth y (monthBuckets afterRange)) area_text trText2
        (toString y ++ "年月份")
    else
      let trText2 :=
        if trText == "" then toString (years.headD 0) ++ "年至" ++ toString (years.getLastD 0) ++ "年"
        else trText
      trendFinish (Bucketed.byYear (yearBuckets afterRange)) area_text trText2 "年份"

/-- `RealEstateAnalyzer.generate_price_trend_chart` from
`AI_agent/data_analysis.py`, parameterised by the external date parser
(`pd.to_datetime`); the `chart_type` argument only selects the rendering
style and does not influence the returned analysis. -/
def generate_price_trend_chart (parseDate : CellVal → Option (Int × Int)) (df : DFrame)
    (city district : Option String) (time_range : Option TimeRangeArg) : TrendResult :=
  if !(df.cols.contains "交易年月日") then TrendResult.noDateColumn
  else
    let area_text := pyStrOpt city ++ (if districtTruthy district then (district).getD "" else "")
    if districtTruthy district && (districtRows df district).isEmpty then
      TrendResult.districtEmpty area_text
    else trendCore parseDate (districtRows df district) area_text time_range

/-- Which bucketing granularity a result carries, if it carries one. -/
def resultIsByMonth : TrendResult → Bool
  | TrendResult.tooFewPoints _ _ (Bucketed.byMonth _ _) => true
  | TrendResult.ok (Bucketed.byMonth _ _) _ _ _ _ _ _ => true
  | _ => false

def resultIsByYear : TrendResult → Bool
  | TrendResult.tooFewPoints _ _ (Bucketed.byYear _) => true
  | TrendResult.ok (Bucketed.byYear _) _ _ _ _ _ _ => true
  | _ => false

def resultHasBuckets : TrendResult → Bool
  | TrendResult.tooFewPoints _ _ _ => true
  | TrendResult.ok _ _ _ _ _ _ _ => true
  | _ => false

/-! ## Range parsing (`web_agent/utils.py`, `parse_range_param`) -/

/-- First maximal digit run of the string, Python `re.search(r'\d+', …)`. -/
def firstDigitRun : List Char → Option (List Char)
  | [] => none
  | c :: t => if c.isDigit then some ((c :: t).takeWhile Char.isDigit) else firstDigitRun t

def rangeSeps : List Char := ['-', '~', '到', '至']

/-- `re.search(r'(\d+)[-~到至](\d+)', …)`: leftmost position where a maximal
digit run is followed by a separator and another digit run. -/
def rangeSearch : List Char → Option (List Char × List Char)
  | [] => none
  | c :: t =>
      if c.isDigit then
        match (c :: t).dropWhile Char.isDigit with
        | [] => rangeSearch t
        | s :: t2 =>
            if rangeSeps.contains s && (match t2 with | d :: _ => d.isDigit | [] => false) then
              some ((c :: t).takeWhile Char.isDigit, t2.takeWhile Char.isDigit)
            else rangeSearch t
      else rangeSearch t

/-- `parse_range_param` from `web_agent/utils.py` on string input (`str()`
conversion of non-string inputs is applied by the caller wrapper below).  A
「以上」/「以下」 marker without digits falls through to the numeric-range and
single-number checks, exactly as the Python control flow does. -/
def parse_range_param (value : String) (suffix : String) : String :=
  if value == "" then ""
  else
    let upDown : Option String :=
      if strIn "以上" value then
        (firstDigitRun value.data).map (fun d => String.mk d ++ "-up-" ++ suffix)
      else if strIn "以下" value then
        (firstDigitRun value.data).map (fun d => String.mk d ++ "-down-" ++ suffix)
      else none
    match upDown with
    | some r => r
    | none =>
        match rangeSearch value.data with
        | some (a, b) => String.mk a ++ "-" ++ String.mk b ++ "-" ++ suffix
        | none =>
            let st := pyStrip value
            if !(st == "") && st.data.all Char.isDigit then
              if suffix == "room" then "1-" ++ st ++ "-" ++ suffix
              else st ++ "-up-" ++ suffix
            else ""

/-- Modelled from the spec: the three supported range shapes
「X以上」 / 「X以下」 / 「A-B」 (§4.6, §8).  The repository has no
`format_range_param`; the spec's round-trip property names it as the
formatter producing these shapes. -/
inductive RangeShape
  | above (n : Nat)
  | below (n : Nat)
  | between (a b : Nat)
deriving DecidableEq, Repr

def digitChar (d : Nat) : Char := Char.ofNat (48 + d)

/-- Decimal digit string of a natural number. -/
def natDigs (n : Nat) : List Char :=
  if n = 0 then ['0'] else ((Nat.digits 10 n).map digitChar).reverse

/-- Modelled from the spec: render a range shape as its surface text
(`format_range_param`; missing from the repository, see `RangeShape`). -/
def format_range_param : RangeShape → String
  | RangeShape.above n => String.mk (natDigs n) ++ "以上"
  | RangeShape.below n => String.mk (natDigs n) ++ "以下"
  | RangeShape.between a b => String.mk (natDigs a) ++ "-" ++ String.mk (natDigs b)

/-- Numeric value of a digit string (inverse of `natDigs`). -/
def digsToNat (l : List Char) : Nat :=
  Nat.ofDigits 10 ((l.map (fun c => c.toNat - 48)).reverse)

/-- Split a character list at every '-'. -/
def splitOnDash : List Char → List (List Char)
  | [] => [[]]
  | c :: t =>
      if c == '-' then [] :: splitOnDash t
      else
        match splitOnDash t with
        | [] => [[c]]
        | h :: r => (c :: h) :: r

/-- Modelled from the spec: decoder of the URL range-token grammar
`{num}-up-{suffix}` / `{num}-down-{suffix}` / `{a}-{b}-{suffix}` (§4.6); the
repository has no inverse of its token grammar, and the spec's round-trip
property (§8) speaks of recovering the numbers and suffix from it. -/
def decode_range_token (t : String) : Option (RangeShape × String) :=
  match splitOnDash t.data with
  | [a, u, s] =>
      if !a.isEmpty && a.all Char.isDigit then
        if u == "up".data then some (RangeShape.above (digsToNat a), String.mk s)
        else if u == "down".data then some (RangeShape.below (digsToNat a), String.mk s)
        else if !u.isEmpty && u.all Char.isDigit then
          some (RangeShape.between (digsToNat a) (digsToNat u), String.mk s)
        else none
      else none
  | _ => none

/-! ## URL builder (`web_agent/url_builder.py`, `SinyiUrlBuilder.build_url`) -/

/-- A value of the parameter dict handed to the URL builder. -/
inductive PVal
  | str (s : String)
  | strList (l : List String)
  | bool (b : Bool)
deriving DecidableEq, Repr

abbrev Params := List (String × PVal)

def pvalTruthy : PVal → Bool
  | PVal.str s => !(s == "")
  | PVal.strList l => !l.isEmpty
  | PVal.bool b => b

/-- Python `str()` of a parameter value. -/
def pvalToStr : PVal → String
  | PVal.str s => s
  | PVal.strList l =>
      let q := String.singleton (Char.ofNat 39)
      "[" ++ String.intercalate ", " (l.map (fun x => q ++ x ++ q)) ++ "]"
  | PVal.bool b => if b then "True" else "False"

def lookupP (params : Params) (k : String) : Option PVal := params.lookup k

def hasKey (params : Params) (k : String) : Bool := params.any (fun p => p.1 == k)

def SINYI_BASE_URL : String := "https://www.sinyi.com.tw/buy/list"

def CITY_MAPPING : List (String × String) :=
  [("台北", "Taipei-city"), ("台北市", "Taipei-city"),
   ("新北", "NewTaipei-city"), ("新北市", "NewTaipei-city")]

def DISTRICT_ZIP_MAPPING : List (String × String) :=
  [("中正區", "100"), ("大同區", "103"), ("中山區", "104"), ("松山區", "105"),
   ("大安區", "106"), ("萬華區", "108"), ("信義區", "110"), ("士林區", "111"),
   ("北投區", "112"), ("內湖區", "114"), ("南港區", "115"), ("文山區", "116"),
   ("萬里區", "207"), ("金山區", "208"), ("板橋區", "220"), ("汐止區", "221"),
   ("深坑區", "222"), ("石碇區", "223"), ("瑞芳區", "224"), ("平溪區", "226"),
   ("雙溪區", "227"), ("貢寮區", "228"), ("新店區", "231"), ("坪林區", "232"),
   ("烏來區", "233"), ("永和區", "234"), ("中和區", "235"), ("土城區", "236"),
   ("三峽區", "237"), ("樹林區", "238"), ("鶯歌區", "239"), ("三重區", "241"),
   ("新莊區", "242"), ("泰山區", "243"), ("林口區", "244"), ("蘆洲區", "247"),
   ("五股區", "248"), ("八里區", "249"), ("淡水區", "251"), ("三芝區", "252"),
   ("石門區", "253")]

def TYPE_MAPPING : List (String × String) :=
  [("公寓", "apartment"), ("大樓", "dalou"), ("套房", "flat"),
   ("別墅", "townhouse-villa"), ("透天", "townhouse-villa"), ("辦公", "office")]

def AMENITY_TAG_MAPPING : List (String × String) :=
  [("近學校", "16"), ("近公園", "19"), ("有游泳池", "9"), ("有健身房", "8"),
   ("近捷運站", "17"), ("近市場", "18"), ("有陽台", "4"), ("有警衛管理", "12")]

/-- `SinyiUrlBuilder._build_price_param` (its own inline copy of the range
grammar: unlike `parse_range_param` the 「以上」/「以下」 branches do not fall
through to the numeric-range check and there is no single-number default). -/
def buildPriceParam : PVal → String
  | PVal.str s =>
      if strIn "以上" s then
        match firstDigitRun s.data with
        | some d => String.mk d ++ "-up-price"
        | none => ""
      else if strIn "以下" s then
        match firstDigitRun s.data with
        | some d => String.mk d ++ "-down-price"
        | none => ""
      else
        match rangeSearch s.data with
        | some (a, b) => String.mk a ++ "-" ++ String.mk b ++ "-price"
        | none => ""
  | _ => ""

/-- `SinyiUrlBuilder._build_type_param`. -/
def buildTypeParam : PVal → String
  | PVal.strList l =>
      let codes := l.filterMap (fun t => TYPE_MAPPING.lookup t)
      if codes.isEmpty then "" else String.intercalate "-" codes ++ "-type"
  | _ => ""

/-- Python `\w` for the character classes these queries use: ASCII
alphanumerics, underscore, and CJK ideographs. -/
def isWordChar (c : Char) : Bool :=
  c.isAlphanum || c == '_' || (decide (0x3400 ≤ c.toNat) && decide (c.toNat ≤ 0x9FFF))

/-- Last index of `stop` in the list, if any. -/
def lastIdxOf (stop : Char) : List Char → Option Nat
  | [] => none
  | c :: t =>
      match lastIdxOf stop t with
      | some j => some (j + 1)
      | none => if c == stop then some 0 else none

/-- Greedy `\w+stop` at the start of `rest`: the longest word-char run ending
at a `stop` with at least one preceding word char. -/
def greedyStopMatch (stop : Char) (rest : List Char) : Option (List Char) :=
  let run := rest.takeWhile isWordChar
  match lastIdxOf stop run with
  | some j => if 1 ≤ j then some (run.take (j + 1)) else none
  | none => none

/-- `re.search(r"捷運(\w+站|\w+線)", query)`, returning `group(0)`. -/
def mrtSearch : List Char → Option String
  | [] => none
  | c :: t =>
      if isPre "捷運".data (c :: t) then
        let rest := (c :: t).drop 2
        match greedyStopMatch '站' rest with
        | some g => some ("捷運" ++ String.mk g)
        | none =>
            match greedyStopMatch '線' rest with
            | some g => some ("捷運" ++ String.mk g)
            | none => mrtSearch t
      else mrtSearch t

/-- Whether one amenity tag is found (`SinyiUrlBuilder._extract_tags` body for
one `tag_name`). -/
def tagFound (params : Params) (query : String) (tagName : String) : Bool :=
  let base :=
    match lookupP params "設施標籤" with
    | some (PVal.strList l) => l.any (fun tag => strIn tagName tag || strIn tag tagName)
    | _ => hasKey params tagName || params.any (fun p => strIn tagName p.1)
  if base then true
  else if tagName == "近捷運站" then strIn "捷運" query || strIn "MRT" query.toUpper
  else if tagName == "有游泳池" then strIn "游泳池" query
  else if tagName == "有健身房" then strIn "健身" query
  else false

/-- `SinyiUrlBuilder._extract_tags`. -/
def extractTags (params : Params) (query : String) : List String :=
  AMENITY_TAG_MAPPING.filterMap (fun p => if tagFound params query p.1 then some p.2 else none)

/-- `SinyiUrlBuilder._build_keyword_param`. -/
def buildKeywordParam (params : Params) (query : String) (tags : List String) : String :=
  if strIn "捷運" query && !(tags.contains "17") then
    match mrtSearch query.data with
    | some kw => kw ++ "-keyword"
    | none => "捷運-keyword"
  else if hasKey params "關鍵字" then
    (match lookupP params "關鍵字" with
     | some v => pvalToStr v
     | none => "") ++ "-keyword"
  else ""

/-- `parse_range_param` as called by the URL builder: the original value's
truthiness is tested first, then the value is `str()`-converted. -/
def parseRangeParamV (v : PVal) (suffix : String) : String :=
  if pvalTruthy v then parse_range_param (pvalToStr v) suffix else ""

/-- `SinyiUrlBuilder.build_url`: transcription of the imperative
`url_parts` accumulation, appending each segment group in source order. -/
def build_url (params : Params) (query : String) : String :=
  let urlParts : List String := []
  let urlParts := urlParts ++
    (match lookupP params "價格範圍" with
     | some v => if buildPriceParam v == "" then [] else [buildPriceParam v]
     | none => [])
  let urlParts := urlParts ++
    (let ht := (lookupP params "房屋類型").getD (PVal.strList [])
     if pvalTruthy ht then
       if buildTypeParam ht == "" then [] else [buildTypeParam ht]
     else [])
  let urlParts := urlParts ++
    (match lookupP params "車位" with
     | some (PVal.str s) =>
         if s == "有車位" then ["plane-auto-mix-mechanical-firstfloor-tower-other-yesparking"]
         else if s == "無車位" then ["noparking"]
         else []
     | _ => [])
  let urlParts := urlParts ++
    (match lookupP params "坪數範圍" with
     | some v => if parseRangeParamV v "area" == "" then [] else [parseRangeParamV v "area"]
     | none => [])
  let urlParts := urlParts ++
    (match lookupP params "屋齡" with
     | some v => if parseRangeParamV v "year" == "" then [] else [parseRangeParamV v "year"]
     | none => [])
  let urlParts := urlParts ++
    (match lookupP params "房間數" with
     | some v => if parseRangeParamV v "room" == "" then [] else [parseRangeParamV v "room"]
     | none => [])
  let urlParts := urlParts ++
    (if pvalTruthy ((lookupP params "排除4樓").getD (PVal.bool false)) || hasKey params "排除4樓" then
       ["4f-exclude"]
     else [])
  let tags := extractTags params query
  let urlParts := urlParts ++
    (if tags.isEmpty then [] else [String.intercalate "-" tags ++ "-tags"])
  let urlParts := urlParts ++
    (if buildKeywordParam params query tags == "" then [] else [buildKeywordParam params query tags])
  let urlParts := urlParts ++
    (match lookupP params "樓層" with
     | some v => if parseRangeParamV v "floor" == "" then [] else [parseRangeParamV v "floor"]
     | none => [])
  let urlParts := urlParts ++
    [(match lookupP params "城市" with
      | some (PVal.str s) => (CITY_MAPPING.lookup s).getD "NewTaipei-city"
      | some _ => "NewTaipei-city"
      | none => (CITY_MAPPING.lookup "新北市").getD "NewTaipei-city")]
  let urlParts := urlParts ++
    (if hasKey params "行政區" then
       match lookupP params "行政區" with
       | some (PVal.str d) =>
           match DISTRICT_ZIP_MAPPING.lookup d with
           | some z => if z == "" then [] else [z ++ "-zip"]
           | none => []
       | _ => []
     else [])
  let urlParts := urlParts ++ ["default-desc"]
  let urlParts := urlParts ++ ["1"]
  SINYI_BASE_URL ++ "/" ++ String.intercalate "/" urlParts

/-- The fixed segment order claimed for `build_url`, as independent
per-category segment lists (the specification side of the order property). -/
def segPrice (params : Params) : List String :=
  match lookupP params "價格範圍" with
  | some v => if buildPriceParam v == "" then [] else [buildPriceParam v]
  | none => []

def segType (params : Params) : List String :=
  let ht := (lookupP params "房屋類型").getD (PVal.strList [])
  if pvalTruthy ht then
    if buildTypeParam ht == "" then [] else [buildTypeParam ht]
  else []

def segParking (params : Params) : List String :=
  match lookupP params "車位" with
  | some (PVal.str s) =>
      if s == "有車位" then ["plane-auto-mix-mechanical-firstfloor-tower-other-yesparking"]
      else if s == "無車位" then ["noparking"]
      else []
  | _ => []

def segRange (params : Params) (key suffix : String) : List String :=
  match lookupP params key with
  | some v => if parseRangeParamV v suffix == "" then [] else [parseRangeParamV v suffix]
  | none => []

def segFourF (params : Params) : List String :=
  if pvalTruthy ((lookupP params "排除4樓").getD (PVal.bool false)) || hasKey params "排除4樓" then
    ["4f-exclude"]
  else []

def segTags (params : Params) (query : String) : List String :=
  let tags := extractTags params query
  if tags.isEmpty then [] else [String.intercalate "-" tags ++ "-tags"]

def segKeyword (params : Params) (query : String) : List String :=
  let kp := buildKeywordParam params query (extractTags params query)
  if kp == "" then [] else [kp]

def segCity (params : Params) : String :=
  match lookupP params "城市" with
  | some (PVal.str s) => (CITY_MAPPING.lookup s).getD "NewTaipei-city"
  | some _ => "NewTaipei-city"
  | none => (CITY_MAPPING.lookup "新北市").getD "NewTaipei-city"

def segDistrict (params : Params) : List String :=
  if hasKey params "行政區" then
    match lookupP params "行政區" with
    | some (PVal.str d) =>
        match DISTRICT_ZIP_MAPPING.lookup d with
        | some z => if z == "" then [] else [z ++ "-zip"]
        | none => []
    | _ => []
  else []

/-- The keys `build_url` reads from the parameter dict. -/
def recognizedKeys : List String :=
  ["價格範圍", "房屋類型", "車位", "坪數範圍", "屋齡", "房間數", "排除4樓",
   "設施標籤", "關鍵字", "樓層", "城市", "行政區"]

def amenityTagNames : List String :=
  ["近學校", "近公園", "有游泳池", "有健身房", "近捷運站", "近市場", "有陽台", "有警衛管理"]

/-! ## Data cache (`agents/tools/data_loader.py`) -/

/-- The module-level `_DATA_CACHE` dict together with the `_CACHE_ENABLED`
flag. -/
structure CacheState where
  tp : Option DFrame
  ntp : Option DFrame
  all : Option DFrame
  lastTp : Option Int
  lastNtp : Option Int
  lastAll : Option Int
  enabled : Bool
deriving DecidableEq, Repr

/-- `clear_cache` from `agents/tools/data_loader.py`. -/
def clear_cache (city : Option String) (s : CacheState) : CacheState :=
  match city with
  | none =>
      { s with tp := none, ntp := none, all := none,
               lastTp := none, lastNtp := none, lastAll := none }
  | some c =>
      if strIn "台北" c || strIn "臺北" c then
        { s with tp := none, lastTp := none, all := none, lastAll := none }
      else if strIn "新北" c then
        { s with ntp := none, lastNtp := none, all := none, lastAll := none }
      else s

/-- `enable_cache` from `agents/tools/data_loader.py`: set the flag, and on
disabling also clear the whole cache. -/
def enable_cache (enabled : Bool) (s : CacheState) : CacheState :=
  let s1 := { s with enabled := enabled }
  if !enabled then clear_cache none s1 else s1

/-! ## Concrete sample inputs used by witnesses and counterexamples -/

def s0cache : CacheState :=
  { tp := some ⟨[], []⟩, ntp := some ⟨[], []⟩, all := some ⟨[], []⟩,
    lastTp := some 1, lastNtp := some 2, lastAll := some 3, enabled := true }

def c2row : Row :=
  [("鄉鎮市區", CellVal.str "大安區"), ("每坪單價", CellVal.int 500000),
   ("總價元", CellVal.int 12000000), ("建物移轉總坪數", CellVal.int 24)]

def c2df : DFrame := ⟨["鄉鎮市區", "每坪單價", "總價元", "建物移轉總坪數"], [c2row]⟩

def c5df : DFrame :=
  ⟨["鄉鎮市區", "電梯", "每坪單價"],
   [[("鄉鎮市區", CellVal.str "大安區"), ("電梯", CellVal.str "有"), ("每坪單價", CellVal.int 100)],
    [("鄉鎮市區", CellVal.str "信義區"), ("電梯", CellVal.str "無"), ("每坪單價", CellVal.int 200)]]⟩

/-- A concrete stand-in for `pd.to_datetime`: cells hold `yyyymm` integers. -/
def sampleParseDate : CellVal → Option (Int × Int)
  | CellVal.int n => some (n / 100, n % 100)
  | _ => none

def c7df : DFrame :=
  ⟨["交易年月日", "每坪單價"],
   [[("交易年月日", CellVal.int 202001), ("每坪單價", CellVal.int 100)],
    [("交易年月日", CellVal.int 202101), ("每坪單價", CellVal.int 200)]]⟩

def c7dfSingle : DFrame :=
  ⟨["交易年月日", "每坪單價"],
   [[("交易年月日", CellVal.int 202003), ("每坪單價", CellVal.int 100)],
    [("交易年月日", CellVal.int 202007), ("每坪單價", CellVal.int 150)]]⟩

/-! # Theorems -/

/-- Claim C10: `enable_cache(False)` disables the flag and clears every cache
entry and every loaded-at timestamp, while `enable_cache(True)` changes only
the flag and leaves all entries unchanged. -/
theorem enable_cache_frame (s : CacheState) :
    enable_cache false s =
      { tp := none, ntp := none, all := none, lastTp := none, lastNtp := none,
        lastAll := none, enabled := false }
  ∧ enable_cache true s = { s with enabled := true } := ⟨rfl, rfl⟩

/-- Claim C9: for a recognized city argument, `clear_cache(city)` clears that
city's entry and timestamp together with the merged "all" entry and its
timestamp. -/
theorem clear_cache_city_invalidates_all (s : CacheState) (c : String)
    (h : (strIn "台北" c || strIn "臺北" c || strIn "新北" c) = true) :
    (clear_cache (some c) s).all = none ∧ (clear_cache (some c) s).lastAll = none
  ∧ ((strIn "台北" c || strIn "臺北" c) = true →
      (clear_cache (some c) s).tp = none ∧ (clear_cache (some c) s).lastTp = none)
  ∧ ((strIn "台北" c || strIn "臺北" c) = false →
      (clear_cache (some c) s).ntp = none ∧ (clear_cache (some c) s).lastNtp = none) := by
  cases htp : (strIn "台北" c || strIn "臺北" c) with
  | true => simp [clear_cache, htp]
  | false =>
      have ha := (Bool.or_eq_false_iff.mp htp).1
      have hb := (Bool.or_eq_false_iff.mp htp).2
      have hnb : strIn "新北" c = true := by simpa [ha, hb] using h
      simp [clear_cache, htp, hnb]

theorem clear_cache_city_invalidates_all_witness :
    (clear_cache (some "台北市") s0cache).tp = none
  ∧ (clear_cache (some "台北市") s0cache).lastTp = none
  ∧ (clear_cache (some "台北市") s0cache).all = none
  ∧ (clear_cache (some "台北市") s0cache).lastAll = none := by
  have h := clear_cache_city_invalidates_all s0cache "台北市" (by decide)
  exact ⟨(h.2.2.1 (by decide)).1, (h.2.2.1 (by decide)).2, h.1, h.2.1⟩

/-- Claim C4: when the model call or schema parse raises, `parse_query_to_json`
returns the minimal record holding only the default time range, and (being a
total function of the outcome) propagates no exception. -/
theorem parse_query_failure_minimal (jsonLoads : String → Option TimeRange) :
    parse_query_to_json jsonLoads ExtractOutcome.failure =
      { city := none, district := none, rooms := none, livingRooms := none, baths := none,
        elevator := none, age := none,
        timeRange := TRField.dictVal ⟨2015, 2024, "2015-2024年(默認)"⟩ } := rfl

/-- Claim C3, counterexample: on an extraction result with no time range the
substituted default span ends at 2024, not at the configured current year
2025, so the claimed span `[current_year − 10, current_year]` is not what the
code produces. -/
theorem parse_query_default_cex :
    (parse_query_to_json (fun _ => none) (ExtractOutcome.parsed {})).timeRange =
      TRField.dictVal ⟨2015, 2024, "2015-2024年"⟩
  ∧ (2024 : Int) ≠ CURRENT_YEAR := by
  exact ⟨rfl, by decide⟩

/-- Claim C3, amended: when the extraction result's 時間範圍 field is missing,
null, or the literal string "null", `parse_query_to_json` substitutes the
fixed default span `[2015, 2024]` — that is, `[current_year − 10,
current_year − 1]` — with the auto-generated description `2015-2024年`. -/
theorem parse_query_default_range (jsonLoads : String → Option TimeRange) (r : RawRecord)
    (h : trIsNoneOrNull r.timeRange = true) :
    (parse_query_to_json jsonLoads (ExtractOutcome.parsed r)).timeRange =
      TRField.dictVal ⟨2015, 2024, "2015-2024年"⟩
  ∧ (2015 : Int) = CURRENT_YEAR - 10 ∧ (2024 : Int) = CURRENT_YEAR - 1 := by
  refine ⟨?_, by decide, by decide⟩
  have hc : trCond1 r.timeRange = false := by
    cases htr : r.timeRange <;> simp_all [trIsNoneOrNull, trCond1]
  simp [parse_query_to_json, hc, h]

theorem parse_query_default_range_witness :
    (parse_query_to_json (fun _ => none)
        (ExtractOutcome.parsed { timeRange := TRField.null })).timeRange =
      TRField.dictVal ⟨2015, 2024, "2015-2024年"⟩ :=
  (parse_query_default_range (fun _ => none) { timeRange := TRField.null } (by decide)).1

/-- Claim C1: `identify_query_type` evaluates its rules in fixed order with
first match winning — plot keyword ⇒ PLOT; else price keyword with a resolved
city or district ⇒ AVERAGE_PRICE; else one of the price regex patterns ⇒
AVERAGE_PRICE; else a resolved city or district with text under 25 characters
⇒ AVERAGE_PRICE; else OTHER. -/
theorem identify_query_type_rules (text : String) (p : ParsedParams) :
    (PLOT_KEYWORDS.any (fun k => strIn k text) = true →
      identify_query_type text p = QueryType.PLOT)
  ∧ (PLOT_KEYWORDS.any (fun k => strIn k text) = false →
      (PRICE_KEYWORDS.any (fun k => strIn k text) && (p.city.isSome || p.district.isSome)) = true →
      identify_query_type text p = QueryType.AVERAGE_PRICE)
  ∧ (PLOT_KEYWORDS.any (fun k => strIn k text) = false →
      (PRICE_KEYWORDS.any (fun k => strIn k text) && (p.city.isSome || p.district.isSome)) = false →
      matchesPricePatterns text = true →
      identify_query_type text p = QueryType.AVERAGE_PRICE)
  ∧ (PLOT_KEYWORDS.any (fun k => strIn k text) = false →
      (PRICE_KEYWORDS.any (fun k => strIn k text) && (p.city.isSome || p.district.isSome)) = false →
      matchesPricePatterns text = false →
      ((p.city.isSome || p.district.isSome) && decide (text.length < 25)) = true →
      identify_query_type text p = QueryType.AVERAGE_PRICE)
  ∧ (PLOT_KEYWORDS.any (fun k => strIn k text) = false →
      (PRICE_KEYWORDS.any (fun k => strIn k text) && (p.city.isSome || p.district.isSome)) = false →
      matchesPricePatterns text = false →
      ((p.city.isSome || p.district.isSome) && decide (text.length < 25)) = false →
      identify_query_type text p = QueryType.OTHER) := by
  refine ⟨fun h1 => ?_, fun h1 h2 => ?_, fun h1 h2 h3 => ?_, fun h1 h2 h3 h4 => ?_,
    fun h1 h2 h3 h4 => ?_⟩
  · simp [identify_query_type, h1]
  · simp [identify_query_type, h1, h2]
  · simp [identify_query_type, h1, h2, h3]
  · simp [identify_query_type, h1, h2, h3, h4]
  · simp [identify_query_type, h1, h2, h3, h4]

theorem identify_query_type_rules_witness :
    identify_query_type "台北市房價趨勢圖" ⟨none, none⟩ = QueryType.PLOT
  ∧ identify_query_type "台北市的房價" ⟨some "台北市", none⟩ = QueryType.AVERAGE_PRICE
  ∧ identify_query_type "台北市的房價" ⟨none, none⟩ = QueryType.AVERAGE_PRICE
  ∧ identify_query_type "介紹大安" ⟨none, some "大安區"⟩ = QueryType.AVERAGE_PRICE
  ∧ identify_query_type "請幫我介紹台灣的美食文化與人文風情喔" ⟨none, none⟩ = QueryType.OTHER :=
  ⟨(identify_query_type_rules "台北市房價趨勢圖" ⟨none, none⟩).1 (by decide),
   (identify_query_type_rules "台北市的房價" ⟨some "台北市", none⟩).2.1 (by decide) (by decide),
   (identify_query_type_rules "台北市的房價" ⟨none, none⟩).2.2.1 (by decide) (by decide) (by decide),
   (identify_query_type_rules "介紹大安" ⟨none, some "大安區"⟩).2.2.2.1 (by decide) (by decide)
     (by decide) (by decide),
   (identify_query_type_rules "請幫我介紹台灣的美食文化與人文風情喔" ⟨none, none⟩).2.2.2.2
     (by decide) (by decide) (by decide) (by decide)⟩

/-- Claim C5: a filter entry whose value is null or an empty/whitespace string
is skipped, so the filtered frame is identical to the one obtained with the
entry removed entirely. -/
theorem filter_data_empty_value_no_constraint (df : DFrame)
    (l1 l2 : List (String × FVal)) (A : String) (v : FVal)
    (h : v = FVal.null ∨ ∃ s, v = FVal.str s ∧ pyStrip s = "") :
    filter_data_by_attributes df (l1 ++ (A, v) :: l2) =
      filter_data_by_attributes df (l1 ++ l2) := by
  have hskip : skipFVal v = true := by
    rcases h with h | ⟨s, rfl, hs⟩
    · subst h; rfl
    · simp [skipFVal, hs]
  have he : entryConds df.cols A v = [] := by simp [entryConds, hskip]
  have hfm : (l1 ++ (A, v) :: l2).flatMap (fun p => entryConds df.cols p.1 p.2) =
      (l1 ++ l2).flatMap (fun p => entryConds df.cols p.1 p.2) := by
    induction l1 with
    | nil => simp [he]
    | cons x t ih => simp only [List.cons_append, List.flatMap_cons, ih]
  simp only [filter_data_by_attributes, hfm]

theorem filter_data_empty_value_no_constraint_witness :
    filter_data_by_attributes c5df [("電梯", FVal.str "有"), ("屋齡", FVal.str " ")] =
      filter_data_by_attributes c5df [("電梯", FVal.str "有")] :=
  filter_data_empty_value_no_constraint c5df [("電梯", FVal.str "有")] [] "屋齡"
    (FVal.str " ") (Or.inr ⟨" ", rfl, by decide⟩)

/-- Claim C2, counterexample: a district absent from a nonempty table is not
filtered on at all — the plain district filter yields zero rows, yet
`calculate_average_price` returns whole-table statistics with a nonzero count
and no error field. -/
theorem calculate_average_price_absent_district_cex :
    (c2df.rows.filter (fun r => cellEq (rowGet r "鄉鎮市區") (CellVal.str "信義區"))).length = 0
  ∧ (calculate_average_price c2df (some "信義區") none).count = 1
  ∧ (calculate_average_price c2df (some "信義區") none).avg_price.isSome = true
  ∧ (calculate_average_price c2df (some "信義區") none).error = none := by
  refine ⟨by decide, by decide, by decide, by decide⟩

/-- Claim C2, amended: the row count reported by `calculate_average_price` is
always the size of its internally filtered frame (district filter applied
only when the district occurs in the 鄉鎮市區 column, then attribute
filters), and whenever that frame is empty the result carries
`avg_price = none`, `count = 0` and the explicit error 找不到相關數據 —
never an exception, never fabricated statistics. -/
theorem calculate_average_price_empty_result (df : DFrame) (district : Option String)
    (filters : Option (List (String × FVal))) :
    (calculate_average_price df district filters).count =
      (capsFiltered df district filters).rows.length
  ∧ ((capsFiltered df district filters).rows.length = 0 →
      calculate_average_price df district filters =
        { avg_price := none, avg_total_price := none, avg_size_ping := none, count := 0,
          district := district, filters := filters, dataframe := none, stats := none,
          error := some "找不到相關數據" }) := by
  constructor
  · by_cases h : 0 < (capsFiltered df district filters).rows.length
    · simp [calculate_average_price, h]
    · simp [calculate_average_price, h]
      omega
  · intro h
    simp [calculate_average_price, h]

theorem calculate_average_price_empty_result_witness :
    calculate_average_price ⟨["鄉鎮市區", "每坪單價"], []⟩ (some "信義區") none =
      { avg_price := none, avg_total_price := none, avg_size_ping := none, count := 0,
        district := some "信義區", filters := none, dataframe := none, stats := none,
        error := some "找不到相關數據" } :=
  (calculate_average_price_empty_result ⟨["鄉鎮市區", "每坪單價"], []⟩ (some "信義區") none).2
    (by decide)

theorem insSortedInt_length (x : Int) (l : List Int) :
    (insSortedInt x l).length = l.length + 1 := by
  induction l with
  | nil => rfl
  | cons y t ih =>
      simp only [insSortedInt]
      split
      · rfl
      · simp [ih]

theorem sortInts_length (l : List Int) : (sortInts l).length = l.length := by
  induction l with
  | nil => rfl
  | cons x t ih => simp [sortInts, List.foldr] at ih ⊢; simp [insSortedInt_length, ih]

theorem dedup_all_eq {l : List Int} {Y : Int} (h : ∀ a ∈ l, a = Y) (hne : l ≠ []) :
    l.dedup = [Y] := by
  induction l with
  | nil => simp at hne
  | cons x t ih =>
      have hx : x = Y := h x (by simp)
      by_cases ht : t = []
      · rw [ht, hx]; simp
      · have hdt := ih (fun a ha => h a (by simp [ha])) ht
        have hmem : x ∈ t := by
          cases t with
          | nil => exact absurd rfl ht
          | cons b t2 =>
              have hb : b = Y := h b (by simp)
              rw [hx, ← hb]
              exact List.mem_cons_self b t2
        rw [List.dedup_cons_of_mem hmem, hdt]

theorem resultIsByMonth_trendFinish (y : Int) (bs : List (Int × ℚ × Nat)) (a t x : String) :
    resultIsByMonth (trendFinish (Bucketed.byMonth y bs) a t x) = true := by
  simp only [trendFinish]
  split
  · rfl
  · rfl

theorem resultIsByMonth_trendFinish_year (bs : List (Int × ℚ × Nat)) (a t x : String) :
    resultIsByMonth (trendFinish (Bucketed.byYear bs) a t x) = false := by
  simp only [trendFinish]
  split
  · rfl
  · rfl

theorem resultIsByYear_trendFinish (bs : List (Int × ℚ × Nat)) (a t x : String) :
    resultIsByYear (trendFinish (Bucketed.byYear bs) a t x) = true := by
  simp only [trendFinish]
  split
  · rfl
  · rfl

theorem resultIsByYear_trendFinish_month (y : Int) (bs : List (Int × ℚ × Nat)) (a t x : String) :
    resultIsByYear (trendFinish (Bucketed.byMonth y bs) a t x) = false := by
  simp only [trendFinish]
  split
  · rfl
  · rfl

/-- Claim C7, counterexample: a time range with `start_year == end_year == 0`
has equal bounds, but zero is falsy in `if start_year:` so no year filter is
applied, and two-year data is bucketed by year, not by month. -/
theorem trend_equal_year_range_cex :
    (TimeRangeArg.mk (some 0) (some 0) none).start_year =
      (TimeRangeArg.mk (some 0) (some 0) none).end_year
  ∧ resultIsByYear (generate_price_trend_chart sampleParseDate c7df none none
      (some (TimeRangeArg.mk (some 0) (some 0) none))) = true
  ∧ resultIsByMonth (generate_price_trend_chart sampleParseDate c7df none none
      (some (TimeRangeArg.mk (some 0) (some 0) none))) = false := by
  refine ⟨rfl, by decide, by decide⟩

/-- Claim C7, amended: when the date column exists and the (district- and
range-) filtered rows are nonempty, `generate_price_trend_chart` buckets by
month exactly when the filtered rows fall in one distinct calendar year and by
year otherwise; in particular a time range whose equal `start_year` and
`end_year` are nonzero (zero is falsy and disables the bound) yields month
buckets whenever any rows remain. -/
theorem generate_price_trend_chart_bucketing
    (parseDate : CellVal → Option (Int × Int)) (df : DFrame) (city district : Option String)
    (tr : Option TimeRangeArg)
    (hcol : df.cols.contains "交易年月日" = true)
    (hdist : (districtTruthy district && (districtRows df district).isEmpty) = false)
    (hne : trendRangeRows parseDate (districtRows df district) tr ≠ []) :
    (resultIsByMonth (generate_price_trend_chart parseDate df city district tr) = true ↔
      ((trendRangeRows parseDate (districtRows df district) tr).map
        (fun x => x.2.1)).dedup.length = 1)
  ∧ (resultIsByYear (generate_price_trend_chart parseDate df city district tr) = true ↔
      ((trendRangeRows parseDate (districtRows df district) tr).map
        (fun x => x.2.1)).dedup.length ≠ 1)
  ∧ (∀ Y : Int, ∀ t : TimeRangeArg, Y ≠ 0 → tr = some t →
      t.start_year = some Y → t.end_year = some Y →
      resultIsByMonth (generate_price_trend_chart parseDate df city district tr) = true) := by
  have hcol2 : (!(df.cols.contains "交易年月日")) = false := by rw [hcol]; rfl
  have hgen : generate_price_trend_chart parseDate df city district tr =
      trendCore parseDate (districtRows df district)
        (pyStrOpt city ++ (if districtTruthy district then (district).getD "" else ""))
        tr := by
    simp only [generate_price_trend_chart, hcol2, hdist, Bool.false_eq_true, if_false]
  have hic : (trendRangeRows parseDate (districtRows df district) tr).isEmpty = false := by
    cases hl : trendRangeRows parseDate (districtRows df district) tr with
    | nil => exact absurd hl hne
    | cons a l => rfl
  have hyslen : (sortedUnique ((trendRangeRows parseDate (districtRows df district) tr).map
      (fun x => x.2.1))).length =
      ((trendRangeRows parseDate (districtRows df district) tr).map
        (fun x => x.2.1)).dedup.length := by
    simp [sortedUnique, sortInts_length]
  have hmain : (resultIsByMonth (generate_price_trend_chart parseDate df city district tr) = true ↔
      ((trendRangeRows parseDate (districtRows df district) tr).map
        (fun x => x.2.1)).dedup.length = 1)
    ∧ (resultIsByYear (generate_price_trend_chart parseDate df city district tr) = true ↔
      ((trendRangeRows parseDate (districtRows df district) tr).map
        (fun x => x.2.1)).dedup.length ≠ 1) := by
    rw [hgen]
    simp only [trendCore, hic, Bool.false_eq_true, if_false]
    by_cases hy : (sortedUnique ((trendRangeRows parseDate (districtRows df district) tr).map
        (fun x => x.2.1))).length = 1
    · have hy2 : ((trendRangeRows parseDate (districtRows df district) tr).map
          (fun x => x.2.1)).dedup.length = 1 := hyslen ▸ hy
      rw [if_pos hy]
      constructor
      · simp [resultIsByMonth_trendFinish, hy2]
      · simp [resultIsByYear_trendFinish_month, hy2]
    · have hy2 : ¬ ((trendRangeRows parseDate (districtRows df district) tr).map
          (fun x => x.2.1)).dedup.length = 1 := fun h2 => hy (by rw [hyslen]; exact h2)
      rw [if_neg hy]
      constructor
      · simp [resultIsByMonth_trendFinish_year, hy2]
      · simp [resultIsByYear_trendFinish, hy2]
  refine ⟨hmain.1, hmain.2, ?_⟩
  intro Y t hY htr hs he
  have hYne : (Y == 0) = false := by simp [hY]
  have hall : ∀ x ∈ trendRangeRows parseDate (districtRows df district) tr, x.2.1 = Y := by
    intro x hx
    rw [htr] at hx
    simp only [trendRangeRows, hs, he, hYne, Bool.not_false, if_true] at hx
    have h1 := List.mem_filter.mp hx
    have h2 := List.mem_filter.mp h1.1
    have hle : x.2.1 ≤ Y := by simpa using h1.2
    have hge : Y ≤ x.2.1 := by simpa using h2.2
    omega
  have hmapne : (trendRangeRows parseDate (districtRows df district) tr).map
      (fun x => x.2.1) ≠ [] := by
    cases hl : trendRangeRows parseDate (districtRows df district) tr with
    | nil => exact absurd hl hne
    | cons a l => simp
  have hconst : ((trendRangeRows parseDate (districtRows df district) tr).map
      (fun x => x.2.1)).dedup = [Y] :=
    dedup_all_eq
      (fun a ha => by
        rcases List.mem_map.mp ha with ⟨x, hx, rfl⟩
        exact hall x hx)
      hmapne
  have hded : ((trendRangeRows parseDate (districtRows df district) tr).map
      (fun x => x.2.1)).dedup.length = 1 := by rw [hconst]; rfl
  exact hmain.1.mpr hded

theorem generate_price_trend_chart_bucketing_witness :
    resultIsByMonth (generate_price_trend_chart sampleParseDate c7dfSingle none none
      (some (TimeRangeArg.mk (some 2020) (some 2020) none))) = true :=
  (generate_price_trend_chart_bucketing sampleParseDate c7dfSingle none none
      (some (TimeRangeArg.mk (some 2020) (some 2020) none))
      (by decide) (by decide) (by decide)).2.2 2020
    (TimeRangeArg.mk (some 2020) (some 2020) none) (by decide) rfl rfl rfl

theorem isPre_refl (p : List Char) : isPre p p = true := by
  induction p with
  | nil => rfl
  | cons c t ih => simp [isPre, ih]

theorem isSub_self (p : List Char) : isSub p p = true := by
  cases p with
  | nil => rfl
  | cons c t => simp [isSub, isPre_refl]

theorem strIn_self (s : String) : strIn s s = true := isSub_self s.data

theorem lookupP_append_ne (params : Params) (k k2 : String) (v : PVal) (h : k2 ≠ k) :
    lookupP (params ++ [(k, v)]) k2 = lookupP params k2 := by
  have hb : (k2 == k) = false := by
    rw [beq_eq_false_iff_ne]
    exact h
  induction params with
  | nil => simp [lookupP, List.lookup, hb]
  | cons x t ih =>
      rcases x with ⟨a, b⟩
      simp only [lookupP, List.cons_append, List.lookup] at ih ⊢
      cases ha : (k2 == a) with
      | true => rfl
      | false => exact ih

theorem hasKey_append_ne (params : Params) (k k2 : String) (v : PVal) (h : k2 ≠ k) :
    hasKey (params ++ [(k, v)]) k2 = hasKey params k2 := by
  have hb : (k == k2) = false := by
    rw [beq_eq_false_iff_ne]
    exact fun e => h e.symm
  simp [hasKey, List.any_append, hb]

theorem keys_any_append (params : Params) (k : String) (v : PVal) (f : String → Bool)
    (h : f k = false) :
    (params ++ [(k, v)]).any (fun p => f p.1) = params.any (fun p => f p.1) := by
  simp [List.any_append, h]

theorem filterMap_ext {α β : Type} (l : List α) (f g : α → Option β)
    (h : ∀ a ∈ l, f a = g a) : l.filterMap f = l.filterMap g := by
  induction l with
  | nil => rfl
  | cons x t ih =>
      simp only [List.filterMap_cons, h x (by simp)]
      rw [ih (fun a ha => h a (by simp [ha]))]

theorem tagFound_append (params : Params) (query : String) (k : String) (v : PVal)
    (n : String) (hk2 : ("設施標籤" : String) ≠ k) (hsub : strIn n k = false) :
    tagFound (params ++ [(k, v)]) query n = tagFound params query n := by
  have hkn : n ≠ k := by
    intro e
    rw [e, strIn_self] at hsub
    exact absurd hsub (by simp)
  simp only [tagFound, lookupP_append_ne params k "設施標籤" v hk2]
  cases hl : lookupP params "設施標籤" with
  | none =>
      rw [hasKey_append_ne params k n v hkn,
        keys_any_append params k v (fun s => strIn n s) hsub]
  | some pv =>
      cases pv with
      | str s =>
          rw [hasKey_append_ne params k n v hkn,
            keys_any_append params k v (fun s => strIn n s) hsub]
      | strList l => rfl
      | bool b =>
          rw [hasKey_append_ne params k n v hkn,
            keys_any_append params k v (fun s => strIn n s) hsub]

theorem extractTags_append (params : Params) (query : String) (k : String) (v : PVal)
    (hk2 : ("設施標籤" : String) ≠ k)
    (htag : ∀ n ∈ amenityTagNames, strIn n k = false) :
    extractTags (params ++ [(k, v)]) query = extractTags params query := by
  unfold extractTags
  apply filterMap_ext
  intro p hp
  have hn : p.1 ∈ amenityTagNames := by
    fin_cases hp <;> decide
  rw [tagFound_append params query k v p.1 hk2 (htag p.1 hn)]

theorem buildKeywordParam_append (params : Params) (query : String) (k : String) (v : PVal)
    (tags : List String) (hk : ("關鍵字" : String) ≠ k) :
    buildKeywordParam (params ++ [(k, v)]) query tags = buildKeywordParam params query tags := by
  simp only [buildKeywordParam, hasKey_append_ne params k "關鍵字" v hk,
    lookupP_append_ne params k "關鍵字" v hk]

/-- Claim C6: `build_url` emits the recognized parameters as path segments in
the fixed order price, type, parking, area, age, rooms, floor-exclusion,
tags, keyword, floor, city, district, sort, page; a parameter whose key is
unrecognized and contains no amenity-tag name is silently ignored — the URL
is unchanged and no failure occurs. -/
theorem build_url_order_and_frame (params : Params) (query : String) (k : String) (v : PVal) :
    build_url params query = SINYI_BASE_URL ++ "/" ++ String.intercalate "/"
      (segPrice params ++ segType params ++ segParking params ++
       segRange params "坪數範圍" "area" ++ segRange params "屋齡" "year" ++
       segRange params "房間數" "room" ++ segFourF params ++ segTags params query ++
       segKeyword params query ++ segRange params "樓層" "floor" ++ [segCity params] ++
       segDistrict params ++ ["default-desc", "1"])
  ∧ (k ∉ recognizedKeys →
     amenityTagNames.all (fun n => !(strIn n k)) = true →
     build_url (params ++ [(k, v)]) query = build_url params query) := by
  have horder : ∀ ps : Params, build_url ps query = SINYI_BASE_URL ++ "/" ++
      String.intercalate "/"
      (segPrice ps ++ segType ps ++ segParking ps ++
       segRange ps "坪數範圍" "area" ++ segRange ps "屋齡" "year" ++
       segRange ps "房間數" "room" ++ segFourF ps ++ segTags ps query ++
       segKeyword ps query ++ segRange ps "樓層" "floor" ++ [segCity ps] ++
       segDistrict ps ++ ["default-desc", "1"]) := by
    intro ps
    simp only [build_url, segPrice, segType, segParking, segRange, segFourF, segTags,
      segKeyword, segCity, segDistrict, List.nil_append, List.append_assoc,
      List.singleton_append, List.cons_append]
  refine ⟨horder params, ?_⟩
  intro hk htag
  have hne : ∀ s : String, s ∈ recognizedKeys → s ≠ k := fun s hs hek => hk (hek ▸ hs)
  have htag2 : ∀ n ∈ amenityTagNames, strIn n k = false := by
    intro n hn
    have := List.all_eq_true.mp htag n hn
    simpa using this
  rw [horder (params ++ [(k, v)]), horder params]
  have e1 := lookupP_append_ne params k "價格範圍" v (hne _ (by decide))
  have e2 := lookupP_append_ne params k "房屋類型" v (hne _ (by decide))
  have e3 := lookupP_append_ne params k "車位" v (hne _ (by decide))
  have e4 := lookupP_append_ne params k "坪數範圍" v (hne _ (by decide))
  have e5 := lookupP_append_ne params k "屋齡" v (hne _ (by decide))
  have e6 := lookupP_append_ne params k "房間數" v (hne _ (by decide))
  have e7 := lookupP_append_ne params k "排除4樓" v (hne _ (by decide))
  have e7b := hasKey_append_ne params k "排除4樓" v (hne _ (by decide))
  have e8 := extractTags_append params query k v (hne _ (by decide)) htag2
  have e9 := buildKeywordParam_append params query k v (extractTags params query)
    (hne _ (by decide))
  have e10 := lookupP_append_ne params k "樓層" v (hne _ (by decide))
  have e11 := lookupP_append_ne params k "城市" v (hne _ (by decide))
  have e12 := lookupP_append_ne params k "行政區" v (hne _ (by decide))
  have e12b := hasKey_append_ne params k "行政區" v (hne _ (by decide))
  rw [segPrice, segPrice, e1, segType, segType, e2, segParking, segParking, e3]
  rw [segRange, segRange, e4, segRange, segRange, e5, segRange, segRange, e6]
  rw [segFourF, segFourF, e7, e7b]
  rw [segTags, segTags, e8]
  rw [segKeyword, segKeyword, e8, e9]
  rw [segRange, segRange, e10]
  rw [segCity, segCity, e11]
  rw [segDistrict, segDistrict, e12, e12b]

theorem build_url_order_and_frame_witness :
    build_url [("城市", PVal.str "台北市"), ("行政區", PVal.str "大安區"),
        ("學區", PVal.str "明星")] "找大安區的房子" =
      build_url [("城市", PVal.str "台北市"), ("行政區", PVal.str "大安區")] "找大安區的房子" :=
  (build_url_order_and_frame [("城市", PVal.str "台北市"), ("行政區", PVal.str "大安區")]
      "找大安區的房子" "學區" (PVal.str "明星")).2 (by decide) (by decide)

theorem dataAppend (a b : String) : (a ++ b).data = a.data ++ b.data := by
  cases a
  cases b
  rfl

theorem stringMk_data (s : String) : String.mk s.data = s := by
  cases s
  rfl

theorem natDigs_all (n : Nat) : (natDigs n).all Char.isDigit = true := by
  unfold natDigs
  split
  · decide
  · rw [List.all_eq_true]
    intro c hc
    rw [List.mem_reverse] at hc
    rcases List.mem_map.mp hc with ⟨d, hd, rfl⟩
    have hd10 : d < 10 := Nat.digits_lt_base (by norm_num) hd
    interval_cases d <;> decide

theorem natDigs_ne_nil (n : Nat) : natDigs n ≠ [] := by
  unfold natDigs
  split
  · simp
  · next h => simp [Nat.digits_ne_nil_iff_ne_zero, h]

theorem digsToNat_natDigs (n : Nat) : digsToNat (natDigs n) = n := by
  unfold natDigs digsToNat
  split
  · next h => subst h; decide
  · next h =>
      have hmc : (Nat.digits 10 n).map (fun d => (digitChar d).toNat - 48) =
          Nat.digits 10 n := by
        have hid : ∀ d ∈ Nat.digits 10 n, (digitChar d).toNat - 48 = d := by
          intro d hd
          have hd10 : d < 10 := Nat.digits_lt_base (by norm_num) hd
          interval_cases d <;> decide
        calc (Nat.digits 10 n).map (fun d => (digitChar d).toNat - 48)
            = (Nat.digits 10 n).map id := List.map_congr_left hid
          _ = Nat.digits 10 n := List.map_id _
      simp [List.map_reverse, List.map_map, Function.comp_def, hmc, Nat.ofDigits_digits]

theorem not_mem_of_all_digit {l : List Char} {c : Char} (hall : l.all Char.isDigit = true)
    (hc : c.isDigit = false) : c ∉ l := by
  intro hmem
  have := List.all_eq_true.mp hall c hmem
  rw [hc] at this
  exact absurd this (by simp)

theorem mem_of_isPre {p : List Char} {c : Char} (hc : c ∈ p) :
    ∀ {h : List Char}, isPre p h = true → c ∈ h := by
  induction p with
  | nil => simp at hc
  | cons a as ih =>
      intro h hp
      cases h with
      | nil => simp [isPre] at hp
      | cons b bs =>
          rw [isPre, Bool.and_eq_true, beq_iff_eq] at hp
          rcases List.mem_cons.mp hc with rfl | hc2
          · rw [hp.1]; exact List.mem_cons_self b bs
          · exact List.mem_cons_of_mem b (ih hc2 hp.2)

theorem mem_of_isSub {p : List Char} {c : Char} (hc : c ∈ p) :
    ∀ {h : List Char}, isSub p h = true → c ∈ h := by
  intro h
  induction h with
  | nil =>
      intro hs
      rw [isSub] at hs
      exact mem_of_isPre hc hs
  | cons b bs ih =>
      intro hs
      rw [isSub, Bool.or_eq_true] at hs
      rcases hs with hs | hs
      · exact mem_of_isPre hc hs
      · exact List.mem_cons_of_mem b (ih hs)

theorem isSub_false_of_not_mem {p h : List Char} {c : Char} (hc : c ∈ p) (hn : c ∉ h) :
    isSub p h = false := by
  cases hs : isSub p h with
  | false => rfl
  | true => exact absurd (mem_of_isSub hc hs) hn

theorem isPre_append (p r : List Char) : isPre p (p ++ r) = true := by
  induction p with
  | nil => rfl
  | cons c t ih => simp [isPre, ih]

theorem isSub_of_isPre {p h : List Char} (hp : isPre p h = true) : isSub p h = true := by
  cases h with
  | nil => rw [isSub]; exact hp
  | cons c t => simp [isSub, hp]

theorem isSub_suffix (l p : List Char) : isSub p (l ++ p) = true := by
  induction l with
  | nil => simpa using isSub_self p
  | cons c t ih =>
      rw [List.cons_append, isSub, ih]
      simp

theorem takeWhile_append_all {p : Char → Bool} {l l2 : List Char} (h : l.all p = true) :
    (l ++ l2).takeWhile p = l ++ l2.takeWhile p := by
  induction l with
  | nil => rfl
  | cons c t ih =>
      rw [List.all_cons, Bool.and_eq_true] at h
      simp [List.takeWhile_cons, h.1, ih h.2]

theorem dropWhile_append_all {p : Char → Bool} {l l2 : List Char} (h : l.all p = true) :
    (l ++ l2).dropWhile p = l2.dropWhile p := by
  induction l with
  | nil => rfl
  | cons c t ih =>
      rw [List.all_cons, Bool.and_eq_true] at h
      simp [List.dropWhile_cons, h.1, ih h.2]

theorem takeWhile_all {p : Char → Bool} {l : List Char} (h : l.all p = true) :
    l.takeWhile p = l := by
  have h2 : (l ++ []).takeWhile p = l ++ [].takeWhile p := takeWhile_append_all h
  simpa using h2

theorem firstDigitRun_append {l l2 : List Char} (hne : l ≠ [])
    (hall : l.all Char.isDigit = true) (hh : l2.takeWhile Char.isDigit = []) :
    firstDigitRun (l ++ l2) = some l := by
  cases l with
  | nil => exact absurd rfl hne
  | cons c t =>
      rw [List.all_cons, Bool.and_eq_true] at hall
      rw [List.cons_append, firstDigitRun, hall.1]
      simp only [if_true]
      rw [← List.cons_append, takeWhile_append_all (by rw [List.all_cons]; simp [hall.1, hall.2]),
        hh, List.append_nil]

theorem isSub_false_aboveBelow {marker : Char} {l : List Char} (hm : marker ∈ l)
    (hmd : marker.isDigit = false) (hdash : ¬ marker = '-') {a b : List Char}
    (ha : a.all Char.isDigit = true) (hb : b.all Char.isDigit = true) :
    isSub l (a ++ '-' :: b) = false := by
  apply isSub_false_of_not_mem hm
  intro hmem
  rcases List.mem_append.mp hmem with h1 | h1
  · exact absurd (List.all_eq_true.mp ha _ h1) (by simp [hmd])
  · rcases List.mem_cons.mp h1 with h2 | h2
    · exact hdash h2
    · exact absurd (List.all_eq_true.mp hb _ h2) (by simp [hmd])

theorem rangeSearch_digits {a b : List Char} (hane : a ≠ []) (ha : a.all Char.isDigit = true)
    (hbne : b ≠ []) (hb : b.all Char.isDigit = true) :
    rangeSearch (a ++ '-' :: b) = some (a, b) := by
  cases a with
  | nil => exact absurd rfl hane
  | cons c t =>
      rw [List.all_cons, Bool.and_eq_true] at ha
      have hdw : ((c :: t) ++ '-' :: b).dropWhile Char.isDigit = '-' :: b := by
        rw [dropWhile_append_all (by rw [List.all_cons]; simp [ha.1, ha.2])]
        simp [List.dropWhile_cons]
      have htw : ((c :: t) ++ '-' :: b).takeWhile Char.isDigit = c :: t := by
        rw [takeWhile_append_all (by rw [List.all_cons]; simp [ha.1, ha.2])]
        simp [List.takeWhile_cons]
      cases b with
      | nil => exact absurd rfl hbne
      | cons d u =>
          rw [List.all_cons, Bool.and_eq_true] at hb
          rw [List.cons_append, rangeSearch]
          rw [show ((c :: (t ++ '-' :: d :: u)).dropWhile Char.isDigit) = '-' :: d :: u from by
            rw [← List.cons_append]; exact hdw]
          simp only [ha.1, if_true]
          rw [show (rangeSeps.contains '-') = true from by decide]
          simp only [hb.1, Bool.true_and, if_true]
          rw [show ((c :: (t ++ '-' :: d :: u)).takeWhile Char.isDigit) = c :: t from by
            rw [← List.cons_append]; exact htw]
          rw [takeWhile_all (by rw [List.all_cons]; simp [hb.1, hb.2])]

theorem splitOnDash_no_dash {l : List Char} (h : ∀ c ∈ l, ¬ c = '-') :
    splitOnDash l = [l] := by
  induction l with
  | nil => rfl
  | cons c t ih =>
      have hc : (c == '-') = false := by
        rw [beq_eq_false_iff_ne]
        exact h c (by simp)
      rw [splitOnDash, hc]
      simp only [Bool.false_eq_true, if_false]
      rw [ih (fun x hx => h x (by simp [hx]))]

theorem splitOnDash_append {l r : List Char} (h : ∀ c ∈ l, ¬ c = '-') :
    splitOnDash (l ++ '-' :: r) = l :: splitOnDash r := by
  induction l with
  | nil => simp [splitOnDash]
  | cons c t ih =>
      have hc : (c == '-') = false := by
        rw [beq_eq_false_iff_ne]
        exact h c (by simp)
      rw [List.cons_append, splitOnDash, hc]
      simp only [Bool.false_eq_true, if_false]
      rw [ih (fun x hx => h x (by simp [hx]))]

theorem natDigs_isEmpty (n : Nat) : (natDigs n).isEmpty = false := by
  cases hd : natDigs n with
  | nil => exact absurd hd (natDigs_ne_nil n)
  | cons a t => rfl

theorem natDigs_no_dash (n : Nat) : ∀ c ∈ natDigs n, ¬ c = '-' := by
  intro c hc he
  subst he
  exact not_mem_of_all_digit (natDigs_all n) (by decide) hc

theorem natDigs_beq_word (n : Nat) (w : List Char) (hw : w.all Char.isDigit = false) :
    (natDigs n == w) = false := by
  rw [beq_eq_false_iff_ne]
  intro e
  have hh := natDigs_all n
  rw [e, hw] at hh
  exact absurd hh (by simp)

theorem parse_format_above (n : Nat) (suffix : String) :
    parse_range_param (format_range_param (RangeShape.above n)) suffix =
      String.mk (natDigs n) ++ "-up-" ++ suffix := by
  have hdata : (format_range_param (RangeShape.above n)).data = natDigs n ++ ['以', '上'] := by
    rw [format_range_param, dataAppend]
  have hne : (format_range_param (RangeShape.above n) == "") = false := by
    rw [beq_eq_false_iff_ne]
    intro e
    have h2 := congrArg String.data e
    rw [hdata] at h2
    exact absurd h2 (by simp)
  have hup : strIn "以上" (format_range_param (RangeShape.above n)) = true := by
    rw [strIn, hdata]
    exact isSub_suffix _ _
  have hrun : firstDigitRun (format_range_param (RangeShape.above n)).data = some (natDigs n) := by
    rw [hdata]
    exact firstDigitRun_append (natDigs_ne_nil n) (natDigs_all n) (by decide)
  simp [parse_range_param, hne, hup, hrun]

theorem parse_format_below (n : Nat) (suffix : String) :
    parse_range_param (format_range_param (RangeShape.below n)) suffix =
      String.mk (natDigs n) ++ "-down-" ++ suffix := by
  have hdata : (format_range_param (RangeShape.below n)).data = natDigs n ++ ['以', '下'] := by
    rw [format_range_param, dataAppend]
  have hne : (format_range_param (RangeShape.below n) == "") = false := by
    rw [beq_eq_false_iff_ne]
    intro e
    have h2 := congrArg String.data e
    rw [hdata] at h2
    exact absurd h2 (by simp)
  have hnup : strIn "以上" (format_range_param (RangeShape.below n)) = false := by
    rw [strIn, hdata]
    refine isSub_false_of_not_mem (c := '上') (by decide) ?_
    intro hmem
    rcases List.mem_append.mp hmem with h1 | h1
    · exact not_mem_of_all_digit (natDigs_all n) (by decide) h1
    · exact absurd h1 (by decide)
  have hdown : strIn "以下" (format_range_param (RangeShape.below n)) = true := by
    rw [strIn, hdata]
    exact isSub_suffix _ _
  have hrun : firstDigitRun (format_range_param (RangeShape.below n)).data = some (natDigs n) := by
    rw [hdata]
    exact firstDigitRun_append (natDigs_ne_nil n) (natDigs_all n) (by decide)
  simp [parse_range_param, hne, hnup, hdown, hrun]

theorem parse_format_between (a b : Nat) (suffix : String) :
    parse_range_param (format_range_param (RangeShape.between a b)) suffix =
      String.mk (natDigs a) ++ "-" ++ String.mk (natDigs b) ++ "-" ++ suffix := by
  have hdata : (format_range_param (RangeShape.between a b)).data =
      natDigs a ++ '-' :: natDigs b := by
    rw [format_range_param, dataAppend, dataAppend]
    simp
  have hne : (format_range_param (RangeShape.between a b) == "") = false := by
    rw [beq_eq_false_iff_ne]
    intro e
    have h2 := congrArg String.data e
    rw [hdata] at h2
    exact absurd h2 (by simp)
  have hnup : strIn "以上" (format_range_param (RangeShape.between a b)) = false := by
    rw [strIn, hdata]
    exact @isSub_false_aboveBelow '以' ("以上".data) (by decide) (by decide) (by decide)
      (natDigs a) (natDigs b) (natDigs_all a) (natDigs_all b)
  have hndown : strIn "以下" (format_range_param (RangeShape.between a b)) = false := by
    rw [strIn, hdata]
    exact @isSub_false_aboveBelow '以' ("以下".data) (by decide) (by decide) (by decide)
      (natDigs a) (natDigs b) (natDigs_all a) (natDigs_all b)
  have hrange : rangeSearch (format_range_param (RangeShape.between a b)).data =
      some (natDigs a, natDigs b) := by
    rw [hdata]
    exact rangeSearch_digits (natDigs_ne_nil a) (natDigs_all a)
      (natDigs_ne_nil b) (natDigs_all b)
  simp [parse_range_param, hne, hnup, hndown, hrange]

theorem decode_up_token (n : Nat) (suffix : String) (h : ∀ c ∈ suffix.data, ¬ c = '-') :
    decode_range_token (String.mk (natDigs n) ++ "-up-" ++ suffix) =
      some (RangeShape.above n, suffix) := by
  have hdata : (String.mk (natDigs n) ++ "-up-" ++ suffix).data =
      natDigs n ++ '-' :: (['u', 'p'] ++ '-' :: suffix.data) := by
    rw [dataAppend, dataAppend]
    simp
  rw [decode_range_token, hdata, splitOnDash_append (natDigs_no_dash n),
    splitOnDash_append (by decide), splitOnDash_no_dash h]
  simp [natDigs_isEmpty, natDigs_all, digsToNat_natDigs, stringMk_data]

theorem decode_down_token (n : Nat) (suffix : String) (h : ∀ c ∈ suffix.data, ¬ c = '-') :
    decode_range_token (String.mk (natDigs n) ++ "-down-" ++ suffix) =
      some (RangeShape.below n, suffix) := by
  have hdata : (String.mk (natDigs n) ++ "-down-" ++ suffix).data =
      natDigs n ++ '-' :: (['d', 'o', 'w', 'n'] ++ '-' :: suffix.data) := by
    rw [dataAppend, dataAppend]
    simp
  rw [decode_range_token, hdata, splitOnDash_append (natDigs_no_dash n),
    splitOnDash_append (by decide), splitOnDash_no_dash h]
  simp [natDigs_isEmpty, natDigs_all, digsToNat_natDigs, stringMk_data]

theorem decode_between_token (a b : Nat) (suffix : String)
    (h : ∀ c ∈ suffix.data, ¬ c = '-') :
    decode_range_token (String.mk (natDigs a) ++ "-" ++ String.mk (natDigs b) ++ "-" ++ suffix) =
      some (RangeShape.between a b, suffix) := by
  have hdata : (String.mk (natDigs a) ++ "-" ++ String.mk (natDigs b) ++ "-" ++ suffix).data =
      natDigs a ++ '-' :: (natDigs b ++ '-' :: suffix.data) := by
    rw [dataAppend, dataAppend, dataAppend]
    simp
  rw [decode_range_token, hdata, splitOnDash_append (natDigs_no_dash a),
    splitOnDash_append (natDigs_no_dash b), splitOnDash_no_dash h]
  have hu : (natDigs b == "up".data) = false := natDigs_beq_word b "up".data (by decide)
  have hd : (natDigs b == "down".data) = false := natDigs_beq_word b "down".data (by decide)
  simp [natDigs_isEmpty, natDigs_all, digsToNat_natDigs, stringMk_data, hu, hd]

/-- Claim C8: for each of the three supported range shapes — 「X以上」,
「X以下」 and 「A-B」 — formatting the numbers and applying
`parse_range_param` produces the URL token from which the original numbers
and suffix are recovered (for any suffix not itself containing the token
separator). -/
theorem parse_range_param_round_trip (shape : RangeShape) (suffix : String)
    (h : ∀ c ∈ suffix.data, ¬ c = '-') :
    decode_range_token (parse_range_param (format_range_param shape) suffix) =
      some (shape, suffix) := by
  cases shape with
  | above n => rw [parse_format_above]; exact decode_up_token n suffix h
  | below n => rw [parse_format_below]; exact decode_down_token n suffix h
  | between a b => rw [parse_format_between]; exact decode_between_token a b suffix h

theorem parse_range_param_round_trip_witness :
    decode_range_token (parse_range_param (format_range_param (RangeShape.between 3 5)) "area") =
      some (RangeShape.between 3 5, "area")
  ∧ decode_range_token (parse_range_param (format_range_param (RangeShape.above 10)) "year") =
      some (RangeShape.above 10, "year")
  ∧ decode_range_token (parse_range_param (format_range_param (RangeShape.below 8)) "floor") =
      some (RangeShape.below 8, "floor") :=
  ⟨parse_range_param_round_trip (RangeShape.between 3 5) "area" (by decide),
   parse_range_param_round_trip (RangeShape.above 10) "year" (by decide),
   parse_range_param_round_trip (RangeShape.below 8) "floor" (by decide)⟩

end AIAgent
